import Mathlib

/-!
Shallow embedding of the `axpo` weather-cache service
(`src/axpo/aemet/scrapping.py` and `src/axpo/aemet/routes.py`).

Modelling conventions:
* Python `datetime` values are modelled by `Dt`: a naive wall-clock reading
  in minutes (`wall : Int`) plus an optional attached UTC offset in minutes
  (`tz : Option Int`, `none` = naive).  `astimezone(pytz.UTC)` on an aware
  value converts (shifts the wall by the offset); on a naive value Python
  assumes the process-local timezone, carried here as an explicit
  `localOff` parameter.
* Timestamp strings rendered with the fixed-width format
  `%Y-%m-%dT%H:%M:%S` compare lexicographically exactly as their wall-clock
  values compare numerically, so rendered timestamps are carried as the
  wall `Int` itself; SQL string comparison on the `ts` column becomes `Int`
  comparison.
* Python floats are modelled as rationals (the spec reads all numeric
  claims modulo floating rounding).
* Python dicts with heterogeneous values (`RenamedData` rows built by the
  translation loop, pandas records) are association lists `List (String × Val)`.
* `sqlite3` tables are lists of rows; the upstream HTTP session is an
  oracle function passed as an argument.
-/

deriving instance DecidableEq for Except

namespace Axpo

/-- Python datetime: naive wall-clock minutes plus optional UTC offset in minutes. -/
structure Dt where
  wall : Int
  tz : Option Int
deriving DecidableEq, Repr

/-- `d.astimezone(pytz.UTC)`: aware values are converted (wall shifted by the
attached offset); naive values are interpreted in the process-local timezone
`localOff` (CPython semantics for `naive.astimezone`). -/
def Dt.astimezoneUTC (localOff : Int) (d : Dt) : Dt :=
  match d.tz with
  | some o => { wall := d.wall - o, tz := some 0 }
  | none => { wall := d.wall - localOff, tz := some 0 }

/-- `d.replace(tzinfo=tz)`: attaches the offset, leaving the wall reading alone. -/
def Dt.replaceTzinfo (off : Int) (d : Dt) : Dt :=
  { wall := d.wall, tz := some off }

/-- Absolute UTC instant denoted by an aware datetime (`none` for naive ones). -/
def Dt.instant? (d : Dt) : Option Int :=
  d.tz.map (fun o => d.wall - o)

/-- A python dict value: string, float (as rational) or datetime. -/
inductive Val where
  | s : String → Val
  | f : ℚ → Val
  | dt : Dt → Val
deriving DecidableEq, Repr

/-- `scrapping.Data`: one raw upstream record.  `fhora` is carried as its
ISO-8601-parsed value (`datetime.fromisoformat` is modelled as retrieving it). -/
structure Data where
  identificacion : String
  nombre : String
  fhora : Dt
  temp : ℚ
  pres : ℚ
  vel : ℚ
deriving DecidableEq, Repr

/-- `scrapping.RenamedData` as the typed row shape used by the storage paths. -/
structure RenamedData where
  identifier : String
  name : String
  ts : Dt
  temperature : ℚ
  pressure : ℚ
  velocity : ℚ
deriving DecidableEq, Repr

/-- `RenamedData.mapping()`: the fixed Spanish-to-English column rename table. -/
def mapping : List (String × String) :=
  [("fhora", "ts"), ("identificacion", "identifier"), ("nombre", "name"),
   ("pres", "pressure"), ("vel", "velocity"), ("temp", "temperature")]

/-- `wanted_fields`: the keys of `Data.__annotations__`.  The source iterates
them as a set; only membership matters to any claim, so annotation order is
used here. -/
def wanted_fields : List String :=
  ["identificacion", "nombre", "fhora", "temp", "pres", "vel"]

/-- `convertion_factor`: unit standardisation table (1 hPa = 100 Pa). -/
def convertion_factor : List (String × ℚ) :=
  [("pres", 100)]

/-- Dict lookup over an association list. -/
def kvLookup (k : String) (kvs : List (String × Val)) : Option Val :=
  (kvs.find? (fun p => p.1 == k)).map Prod.snd

/-- `entry[k]` for a raw record; only ever applied to `wanted_fields`. -/
def entryVal (e : Data) (k : String) : Val :=
  if k = "identificacion" then .s e.identificacion
  else if k = "nombre" then .s e.nombre
  else if k = "temp" then .f e.temp
  else if k = "pres" then .f e.pres
  else if k = "vel" then .f e.vel
  else if k = "fhora" then .dt e.fhora
  else .s ""

/-- Float multiplication by a conversion factor (no-op on non-floats). -/
def valScale (c : ℚ) : Val → Val
  | .f x => .f (c * x)
  | v => v

/-- The per-entry body of the translation loop in
`Scrapper._query_single_location`: rename each wanted field, multiply fields
listed in `convertion_factor`, parse-and-`astimezone(UTC)` the `fhora` field,
and pass every other field through unchanged. -/
def translate_entry (localOff : Int) (e : Data) : List (String × Val) :=
  wanted_fields.map (fun k =>
    let renamed := (((mapping.find? (fun p => p.1 == k)).map Prod.snd).getD "")
    match (convertion_factor.find? (fun p => p.1 == k)).map Prod.snd with
    | some c => (renamed, valScale c (entryVal e k))
    | none =>
      if k = "fhora" then
        (renamed,
          match entryVal e k with
          | .dt d => .dt (d.astimezoneUTC localOff)
          | v => v)
      else (renamed, entryVal e k))

/-- `AntarticaRequestResponse`: the stage-1 JSON envelope. -/
structure AntarticaRequestResponse where
  descripcion : String
  estado : Int
  datos : String
  metadatos : String
deriving DecidableEq, Repr

/-- The upstream HTTP session, as an oracle: the response to the templated
stage-1 URL, and the response to any URL fetched at stage 2.  A response is a
status code paired with its decoded JSON body. -/
structure FetchWorld where
  stage1 : Nat × AntarticaRequestResponse
  stage2 : String → Nat × List Data

/-- The local `log_if_error` helper of `Scrapper._query_single_location`: logs
whenever the status is not 200.  The closure captures the stage-1 `url`
variable, so both call sites log that same URL and message. -/
def log_if_error (url : String) (status : Nat) : List String :=
  if status ≠ 200 then
    ["Error atempting to download the data (1st stage). url=" ++ url ++
      " status=" ++ toString status]
  else []

/-- `requests.Response.raise_for_status`: raises `HTTPError` exactly for
4xx and 5xx status codes. -/
def raise_for_status (status : Nat) : Except String Unit :=
  if 400 ≤ status ∧ status < 600 then .error ("HTTPError: " ++ toString status)
  else .ok ()

/-- Trace of one `_query_single_location` call: the URLs requested in order,
the error-log lines emitted, and the returned value (or raised exception). -/
structure FetchTrace where
  urls : List String
  logs : List String
  result : Except String (List (List (String × Val)))
deriving Repr

/-- `Scrapper._query_single_location`: GET the templated URL; log if the
status is not 200; `raise_for_status` (4xx/5xx abort here); then GET the URL
found in the envelope's `datos` field, log (the captured stage-1 URL) if that
status is not 200, and translate the body's records either way. -/
def query_single_location (localOff : Int) (w : FetchWorld) (url : String) :
    FetchTrace :=
  let resp1 := w.stage1
  let logs1 := log_if_error url resp1.1
  match raise_for_status resp1.1 with
  | .error e => { urls := [url], logs := logs1, result := .error e }
  | .ok _ =>
    let datosUrl := resp1.2.datos
    let resp2 := w.stage2 datosUrl
    { urls := [url, datosUrl],
      logs := logs1 ++ log_if_error url resp2.1,
      result := .ok (resp2.2.map (translate_entry localOff)) }

/-- One row of the `Measure` table.  `ts` is the stored fixed-format UTC
string, carried as its wall value. -/
structure MeasureRow where
  identifier : String
  ts : Int
  temperature : ℚ
  pressure : ℚ
  velocity : ℚ
deriving DecidableEq, Repr

/-- Whether the table already holds a row with this row's `(identifier, ts)` key. -/
def keyMem (t : List MeasureRow) (r : MeasureRow) : Bool :=
  t.any (fun x => x.identifier == r.identifier && x.ts == r.ts)

/-- Modelled from the spec: `create_measure.sql` is not in the tree; per the
spec's data model the `Measure` table is keyed on `(identifier, ts)` and the
`INSERT OR IGNORE` statement appends each listed row unless a row with the
same key is already present, in which case that row is silently skipped. -/
def insertOrIgnore (t : List MeasureRow) (rows : List MeasureRow) :
    List MeasureRow :=
  rows.foldl (fun acc r => if keyMem acc r then acc else acc ++ [r]) t

/-- The per-row rendering inside `Scrapper.insert_into_db`:
`("{identifier}", "{ts}", {temperature}, {pressure}, {velocity})` with `ts`
rendered by `strftime(self.DATABASE_FORMAT)` (its wall value). -/
def renderRow (v : RenamedData) : MeasureRow :=
  { identifier := v.identifier, ts := v.ts.wall,
    temperature := v.temperature, pressure := v.pressure,
    velocity := v.velocity }

/-- Structural worker for `batched`: the fuel bounds the number of chunks
(each chunk consumes at least one element, so the input length suffices). -/
def batchedGo (fuel n : Nat) (l : List α) : List (List α) :=
  match fuel, l with
  | 0, _ => []
  | _, [] => []
  | fuel + 1, a :: rest =>
    if n = 0 then []
    else (a :: rest).take n :: batchedGo fuel n ((a :: rest).drop n)

/-- `itertools.batched`: successive chunks of size `n` (last one may be
short).  Callers guard `n = 0`, which `batched` rejects in Python. -/
def batched (n : Nat) (l : List α) : List (List α) :=
  batchedGo l.length n l

/-- The value of the `rows` local of `Scrapper.insert_into_db` after the
per-batch loop: the loop rebinds `rows` to the rendered rows of each batch in
turn, so only the final batch's rendering survives it; when the loop body
never runs, `rows` is never bound (`none`). -/
def insertRowsOf (data : List RenamedData) (batch_size : Nat) :
    Option (List MeasureRow) :=
  (batched batch_size data).foldl (fun _ b => some (b.map renderRow)) none

/-- `Scrapper.insert_into_db`: batches the rows, renders each batch inside the
loop, then builds and executes the single `INSERT OR IGNORE` statement after
the loop, from the last value bound to `rows` — an unbound `rows` (empty
`data`) raises. -/
def insert_into_db (data : List RenamedData) (batch_size : Nat)
    (tbl : List MeasureRow) : Except String (List MeasureRow) :=
  if batch_size = 0 then .error "ValueError: n must be at least one"
  else
    match insertRowsOf data batch_size with
    | none => .error "UnboundLocalError: rows referenced before assignment"
    | some rows => .ok (insertOrIgnore tbl rows)

/-- The wall value rendered by `strftime` after `astimezone(pytz.UTC)`;
shared by `update_data`'s upstream date formatting (`DATEFORMAT`) and
`request_data`'s query bounds (`DATABASE_FORMAT`), both of whose fixed-width
renderings compare as the wall value does. -/
def strftimeUTC (localOff : Int) (d : Dt) : Int :=
  (d.astimezoneUTC localOff).wall

/-- `Scrapper.update_data`: format start and end once (converted to UTC), then
for each location in the order given, run the two-stage fetch (the `fetch`
oracle, taking the formatted bounds and the location) and insert the chunk.
The returned pair is the state of the `Measure` table when the call finishes
or the first uncaught exception aborts it, plus that outcome. -/
def update_data (localOff : Int)
    (fetch : Int → Int → String → Except String (List RenamedData))
    (start_date end_date : Dt) :
    List String → List MeasureRow → List MeasureRow × Except String Unit
  | [], tbl => (tbl, .ok ())
  | loc :: rest, tbl =>
    match fetch (strftimeUTC localOff start_date) (strftimeUTC localOff end_date) loc with
    | .error e => (tbl, .error e)
    | .ok chunk =>
      match insert_into_db chunk 50 tbl with
      | .error e => (tbl, .error e)
      | .ok t2 => update_data localOff fetch start_date end_date rest t2

/-- Modelled from the spec: `insert_stations.sql` is not in the tree; per the
spec's data model the `Station` table is seeded with the two fixed stations,
display names mapped 1:1 to their technical identifiers. -/
def stationSeed : List (String × String) :=
  [("89070", "Meteo Station Gabriel de Castilla"),
   ("89064", "Meteo Station Juan Carlos I")]

/-- `Scrapper.request_data`: select the `Measure` rows whose stored `ts`
string lies in `[start, end]` (bounds rendered via `astimezone(pytz.UTC)` +
`strftime`) for the requested identifier, resolve the display name through
the `Station` table (a missing identifier raises, as the dict lookup does),
and parse `ts` back with `strptime(...).astimezone(UTC)` — the parsed value
is naive, so `astimezone` applies the process-local offset. -/
def request_data (db : List MeasureRow) (stations : List (String × String))
    (localOff : Int) (start_date end_date : Dt) (location : String) :
    Except String (List RenamedData) :=
  let s := strftimeUTC localOff start_date
  let e := strftimeUTC localOff end_date
  let rows := db.filter (fun r =>
    decide (s ≤ r.ts) && decide (r.ts ≤ e) && r.identifier == location)
  rows.mapM (fun r =>
    match (stations.find? (fun p => p.1 == r.identifier)).map Prod.snd with
    | none => .error "KeyError: names_mapper"
    | some nm =>
      .ok { identifier := r.identifier, name := nm,
            ts := Dt.astimezoneUTC localOff { wall := r.ts, tz := none },
            temperature := r.temperature, pressure := r.pressure,
            velocity := r.velocity })

/-- `routes.Station`: the closed set of supported station display names. -/
inductive Station where
  | gabrielDeCastilla
  | juanCarlosI
deriving DecidableEq, Repr

/-- The string value of the `Station` enum member (it is a string enum). -/
def stationDisplayName : Station → String
  | .gabrielDeCastilla => "Meteo Station Gabriel de Castilla"
  | .juanCarlosI => "Meteo Station Juan Carlos I"

/-- `routes.IDENTITY_MAPPER`: display name to technical station identifier. -/
def IDENTITY_MAPPER : Station → String
  | .gabrielDeCastilla => "89070"
  | .juanCarlosI => "89064"

/-- `routes.AggregationLevel`. -/
inductive AggLevel where
  | hourly
  | daily
  | monthly
deriving DecidableEq, Repr

/-- The handler's `mapper` from aggregation level to pandas resample code. -/
def aggMapper : AggLevel → String
  | .hourly => "h"
  | .daily => "d"
  | .monthly => "M"

/-- The handler's date parsing,
`datetime.strptime(s, DATEFORMAT).replace(tzinfo=tz)`: the naive parsed wall
value with the requested zone's offset attached, not shifted. -/
def routeParseDate (naiveWall : Int) (tzOff : Int) : Dt :=
  Dt.replaceTzinfo tzOff { wall := naiveWall, tz := none }

/-- A pandas DataFrame: an optional datetime index (`none` = the default
RangeIndex), column names, and positional cell rows. -/
structure DFrame where
  idx : Option (List Dt)
  cols : List String
  cells : List (List Val)
deriving DecidableEq, Repr

/-- The record dict built per row by `request_data` (dict insertion order:
the five `ordered_fields`, then the appended `name`; `ts` is overwritten in
place). -/
def recordOfRenamed (r : RenamedData) : List (String × Val) :=
  [("identifier", .s r.identifier), ("ts", .dt r.ts),
   ("temperature", .f r.temperature), ("pressure", .f r.pressure),
   ("velocity", .f r.velocity), ("name", .s r.name)]

/-- `pd.DataFrame(records)`: columns are the record keys in first-seen order;
a key missing from some record yields a hole (all records here share keys). -/
def DFrame.ofRecords (recs : List (List (String × Val))) : DFrame :=
  let cols := recs.foldl
    (fun acc kvs => kvs.foldl
      (fun a kv => if a.contains kv.1 then a else a ++ [kv.1]) acc) []
  { idx := none, cols := cols,
    cells := recs.map (fun kvs => cols.map (fun c => (kvLookup c kvs).getD (.f 0))) }

/-- `df.drop(columns=cs)` with the default `errors="raise"`: raises `KeyError`
unless every listed label is a column of the frame. -/
def dropColumns (cs : List String) (df : DFrame) : Except String DFrame :=
  if cs.all (fun c => df.cols.contains c) then
    .ok { idx := df.idx,
          cols := df.cols.filter (fun c => !(cs.contains c)),
          cells := df.cells.map (fun row =>
            (((df.cols.zip row).filter (fun p => !(cs.contains p.1))).map Prod.snd)) }
  else .error "KeyError: columns not found in axis"

/-- `df[c]` as a read: raises `KeyError` when the column is absent. -/
def getColumn (df : DFrame) (c : String) : Except String (List Val) :=
  if df.cols.contains c then
    .ok (df.cells.map (fun row => (kvLookup c (df.cols.zip row)).getD (.f 0)))
  else .error "KeyError: column not found"

/-- `df[c] = vals`: replace the column in place, or append it. -/
def setColumnVals (df : DFrame) (c : String) (vs : List Val) : DFrame :=
  if df.cols.contains c then
    { df with cells := (df.cells.zip vs).map (fun rv =>
        (df.cols.zip rv.1).map (fun p => if p.1 == c then rv.2 else p.2)) }
  else
    { df with
      cols := df.cols ++ [c],
      cells := (df.cells.zip vs).map (fun rv => rv.1 ++ [rv.2]) }

/-- `df[c] = scalar`: broadcast one value down the column. -/
def setColumnScalar (df : DFrame) (c : String) (v : Val) : DFrame :=
  setColumnVals df c (df.cells.map (fun _ => v))

/-- `pd.to_datetime` applied to a column that already holds datetimes is the
identity on its values. -/
def to_datetime (vs : List Val) : List Val := vs

/-- Civil date (year, month, day) of a day count from 1970-01-01
(Gregorian proleptic, Hinnant's algorithm). -/
def civilFromDays (z0 : Int) : Int × Int × Int :=
  let z := z0 + 719468
  let era := z.fdiv 146097
  let doe := z - era * 146097
  let yoe := (doe - doe / 1460 + doe / 36524 - doe / 146096) / 365
  let y := yoe + era * 400
  let doy := doe - (365 * yoe + yoe / 4 - yoe / 100)
  let mp := (5 * doy + 2) / 153
  let d := doy - (153 * mp + 2) / 5 + 1
  let m := mp + (if mp < 10 then 3 else -9)
  (y + (if m ≤ 2 then 1 else 0), m, d)

/-- Day count from 1970-01-01 of a civil date (inverse of `civilFromDays`). -/
def daysFromCivil (y0 m d : Int) : Int :=
  let y := y0 - (if m ≤ 2 then 1 else 0)
  let era := y.fdiv 400
  let yoe := y - era * 400
  let doy := (153 * (m + (if m > 2 then -3 else 9)) + 2) / 5 + d - 1
  let doe := yoe * 365 + yoe / 4 - yoe / 100 + doy
  era * 146097 + doe - 719468

/-- Midnight (in minutes) of the last day of the month containing wall `w`,
the label pandas uses for month-end (`M`) resampling buckets. -/
def monthEndMinutes (w : Int) : Int :=
  let c := civilFromDays (w.fdiv 1440)
  let y := c.1
  let m := c.2.1
  let next := if m = 12 then (y + 1, (1 : Int)) else (y, m + 1)
  1440 * (daysFromCivil next.1 next.2 1 - 1)

/-- The bucket label of a wall value under a pandas resample code:
`h` and `d` floor to the period start, `M` labels by month end. -/
def bucketStart (code : String) (w : Int) : Int :=
  if code == "h" then w - w.emod 60
  else if code == "d" then w - w.emod 1440
  else if code == "M" then monthEndMinutes w
  else w

/-- True on float cells. -/
def isNumVal : Val → Bool
  | .f _ => true
  | _ => false

/-- True on datetime cells. -/
def isDtVal : Val → Bool
  | .dt _ => true
  | _ => false

/-- The values of one column of a frame. -/
def colVals (df : DFrame) (c : String) : List Val :=
  df.cells.map (fun row => (kvLookup c (df.cols.zip row)).getD (.f 0))

/-- Insertion into a sorted list of bucket labels. -/
def insertSorted (x : Int) : List Int → List Int
  | [] => [x]
  | y :: ys => if x ≤ y then x :: y :: ys else y :: insertSorted x ys

/-- Ascending sort of bucket labels. -/
def sortInts (l : List Int) : List Int := l.foldr insertSorted []

/-- First-occurrence deduplication of bucket labels. -/
def dedupInts (l : List Int) : List Int :=
  l.foldl (fun acc x => if acc.contains x then acc else acc ++ [x]) []

/-- Mean of a list of rationals. -/
def ratMean (l : List ℚ) : ℚ := l.foldl (· + ·) 0 / (l.length : ℚ)

/-- `df.resample(code, on=onCol).mean()` for the frames this handler builds
(the resampling column UTC-aware, the remaining columns numeric): group rows
by the bucket label of their `onCol` value, average each numeric column per
bucket, and index the result by the ascending bucket labels. -/
def resampleMean (code : String) (onCol : String) (df : DFrame) :
    Except String DFrame :=
  if df.cols.contains onCol then
    let onVals := colVals df onCol
    if onVals.all isDtVal then
      let rowBuckets := onVals.map (fun v =>
        match v with
        | .dt d => bucketStart code d.wall
        | _ => 0)
      let numCols := df.cols.filter (fun c =>
        (!(c == onCol)) && (colVals df c).all isNumVal)
      let buckets := sortInts (dedupInts rowBuckets)
      let tzc : Option Int :=
        match onVals with
        | (.dt d) :: _ => d.tz
        | _ => some 0
      .ok { idx := some (buckets.map (fun b => { wall := b, tz := tzc })),
            cols := numCols,
            cells := buckets.map (fun b => numCols.map (fun c =>
              Val.f (ratMean (((rowBuckets.zip (colVals df c)).filter
                (fun p => p.1 == b)).map (fun p =>
                  match p.2 with
                  | .f x => x
                  | _ => 0))))) }
    else .error "TypeError: resample requires datetime values"
  else .error "KeyError: resample column not found"

/-- `pd.concat(frames)`: raises on an empty list; the per-station frames here
share one column set, so concatenation stacks their rows and indexes. -/
def concatFrames (frames : List DFrame) : Except String DFrame :=
  match frames with
  | [] => .error "ValueError: No objects to concatenate"
  | f :: rest =>
    .ok (rest.foldl (fun acc g =>
      { idx :=
          match acc.idx, g.idx with
          | some a, some b => some (a ++ b)
          | _, _ => none,
        cols := acc.cols,
        cells := acc.cells ++ g.cells }) f)

/-- `grouped.index.tz_convert(zone)`: defined only on a timezone-aware
datetime index; it shifts each label to the zone's offset at that instant
(`offOf`), keeping the instant.  The default RangeIndex has no `tz_convert`. -/
def tzConvertIndex (offOf : Int → Int) (df : DFrame) : Except String DFrame :=
  match df.idx with
  | none => .error "TypeError: index is not a DatetimeIndex"
  | some dts =>
    if dts.all (fun d => d.tz.isSome) then
      .ok { df with idx := some (dts.map (fun d =>
        match d.tz with
        | some o =>
          let inst := d.wall - o
          { wall := inst + offOf inst, tz := some (offOf inst) }
        | none => d)) }
    else .error "TypeError: tz_convert on naive index"

/-- `grouped.reset_index().to_dict(orient="records")`: the index (named after
the resampling column) flattened back to a leading column. -/
def resetIndexRecords (df : DFrame) : List (List (String × Val)) :=
  match df.idx with
  | some dts => (dts.zip df.cells).map (fun p =>
      ("fhora", Val.dt p.1) :: df.cols.zip p.2)
  | none => df.cells.map (fun row => df.cols.zip row)

/-- `routes.get_data`, the `GET /aemet/antartica` handler, for requests that
pass query validation: attach the zone's offset to the naive parsed dates;
per station, read the cached rows, build a frame, drop the
`nombre`/`identificacion` columns, convert the `fhora` column, resample when
an aggregation level is given, and re-attach the display name; then
concatenate, convert the index to Europe/Madrid (`madridOff` gives that
zone's offset per instant), and serialise the records.  The first exception
aborts the request. -/
def get_data (db : List MeasureRow) (stations : List (String × String))
    (localOff : Int) (madridOff : Int → Int) (tzOff : Int)
    (startNaive endNaive : Int) (locations : List Station)
    (aggregation_level : Option AggLevel) :
    Except String (List (List (String × Val))) := do
  let start_date := routeParseDate startNaive tzOff
  let end_date := routeParseDate endNaive tzOff
  let all_data ← locations.mapM (fun loc => do
    let data ← request_data db stations localOff start_date end_date
      (IDENTITY_MAPPER loc)
    let df := DFrame.ofRecords (data.map recordOfRenamed)
    let df ← dropColumns ["nombre", "identificacion"] df
    let fcol ← getColumn df "fhora"
    let df := setColumnVals df "fhora" (to_datetime fcol)
    let df ← match aggregation_level with
      | some lvl => resampleMean (aggMapper lvl) "fhora" df
      | none => pure df
    pure (setColumnScalar df "nombre" (.s (stationDisplayName loc))))
  let grouped ← concatFrames all_data
  let grouped ← tzConvertIndex madridOff grouped
  pure (resetIndexRecords grouped)

/-- The translated chunk the mock upstream of `test_routes.py` yields for
station 89064: same stations, names and timestamps (minutes from
2024-01-01T00:00 UTC), with integer-rounded numeric values — no claim here
depends on the fractional parts. -/
def mockChunk89064 : List RenamedData :=
  [{ identifier := "89064", name := "JCI Estacion meteorologica",
     ts := { wall := 0, tz := some 0 },
     temperature := 2, pressure := 99080, velocity := 1 },
   { identifier := "89064", name := "JCI Estacion meteorologica",
     ts := { wall := 10, tz := some 0 },
     temperature := 2, pressure := 99080, velocity := 1 },
   { identifier := "89064", name := "JCI Estacion meteorologica",
     ts := { wall := 20, tz := some 0 },
     temperature := 2, pressure := 99090, velocity := 1 }]

/-- The translated chunk of the mock upstream for station 89070. -/
def mockChunk89070 : List RenamedData :=
  [{ identifier := "89070", name := "GdC Estacion meteorologica",
     ts := { wall := 0, tz := some 0 },
     temperature := 3, pressure := 99140, velocity := 1 },
   { identifier := "89070", name := "GdC Estacion meteorologica",
     ts := { wall := 10, tz := some 0 },
     temperature := 2, pressure := 99150, velocity := 1 },
   { identifier := "89070", name := "GdC Estacion meteorologica",
     ts := { wall := 20, tz := some 0 },
     temperature := 2, pressure := 99160, velocity := 1 }]

/-- Fetch oracle mirroring the test's mock upstream server, plus a station
whose measurement array is empty and an unknown station that fails. -/
def mockFetch : Int → Int → String → Except String (List RenamedData) :=
  fun _ _ loc =>
    if loc == "89064" then .ok mockChunk89064
    else if loc == "89070" then .ok mockChunk89070
    else if loc == "empty" then .ok []
    else .error "no mock payload"

/-- The test's `start_date`, 2024-01-01T00:00 UTC. -/
def dtStart : Dt := { wall := 0, tz := some 0 }

/-- The test's `end_date`, 2024-01-01T00:20 UTC. -/
def dtEnd : Dt := { wall := 20, tz := some 0 }

/-- The `Measure` table after the test's ingestion run. -/
def testDb : List MeasureRow :=
  (update_data 0 mockFetch dtStart dtEnd ["89064", "89070"] []).1

lemma insertOrIgnore_cons (t : List MeasureRow) (r : MeasureRow)
    (rs : List MeasureRow) :
    insertOrIgnore t (r :: rs) =
      insertOrIgnore (if keyMem t r then t else t ++ [r]) rs := rfl

lemma keyMem_append {t u : List MeasureRow} {r : MeasureRow}
    (h : keyMem t r = true) : keyMem (t ++ u) r = true := by
  simp only [keyMem, List.any_append, Bool.or_eq_true]
  exact Or.inl h

lemma exists_append_insertOrIgnore (rs : List MeasureRow) :
    ∀ t, ∃ u, insertOrIgnore t rs = t ++ u := by
  induction rs with
  | nil => exact fun t => ⟨[], by simp [insertOrIgnore]⟩
  | cons r rs ih =>
    intro t
    rw [insertOrIgnore_cons]
    cases hk : keyMem t r with
    | true =>
      simp only [hk, if_true]
      exact ih t
    | false =>
      simp only [hk, Bool.false_eq_true, if_false]
      obtain ⟨u, hu⟩ := ih (t ++ [r])
      exact ⟨[r] ++ u, by rw [hu, List.append_assoc]⟩

lemma keyMem_insertOrIgnore_mono (rs : List MeasureRow) {t : List MeasureRow}
    {r : MeasureRow} (h : keyMem t r = true) :
    keyMem (insertOrIgnore t rs) r = true := by
  obtain ⟨u, hu⟩ := exists_append_insertOrIgnore rs t
  rw [hu]
  exact keyMem_append h

lemma keyMem_self_append (t : List MeasureRow) (r : MeasureRow) :
    keyMem (t ++ [r]) r = true := by
  simp [keyMem, List.any_append]

lemma keyMem_insertOrIgnore_of_mem (rs : List MeasureRow) :
    ∀ t r, r ∈ rs → keyMem (insertOrIgnore t rs) r = true := by
  induction rs with
  | nil => intro t r h; cases h
  | cons a as ih =>
    intro t r h
    rw [insertOrIgnore_cons]
    rcases List.mem_cons.mp h with heq | hmem
    · subst heq
      apply keyMem_insertOrIgnore_mono
      cases hk : keyMem t r with
      | true => simp [hk]
      | false => simp [hk, keyMem_self_append]
    · exact ih _ r hmem

lemma insertOrIgnore_no_new (rs : List MeasureRow) :
    ∀ t, (∀ r ∈ rs, keyMem t r = true) → insertOrIgnore t rs = t := by
  induction rs with
  | nil => intro t _; rfl
  | cons a as ih =>
    intro t h
    rw [insertOrIgnore_cons]
    have ha : keyMem t a = true := h a (List.mem_cons_self a as)
    rw [if_pos ha]
    exact ih t (fun r hr => h r (List.mem_cons_of_mem a hr))

lemma insert_into_db_ok {d : List RenamedData} {bs : Nat}
    {t t2 : List MeasureRow} (h : insert_into_db d bs t = .ok t2) :
    bs ≠ 0 ∧ ∃ rows, insertRowsOf d bs = some rows ∧
      t2 = insertOrIgnore t rows := by
  unfold insert_into_db at h
  split at h
  · exact Except.noConfusion h
  · rename_i hbs
    split at h
    · exact Except.noConfusion h
    · rename_i rows hrows
      exact ⟨hbs, rows, hrows, (Except.ok.inj h).symm⟩

lemma insert_into_db_stable {d : List RenamedData} {bs : Nat}
    {t t2 : List MeasureRow} (h : insert_into_db d bs t = .ok t2) :
    ∀ u, insert_into_db d bs (t2 ++ u) = .ok (t2 ++ u) := by
  obtain ⟨hbs, rows, hrows, ht2⟩ := insert_into_db_ok h
  intro u
  unfold insert_into_db
  rw [if_neg hbs, hrows]
  have hall : insertOrIgnore (t2 ++ u) rows = t2 ++ u := by
    apply insertOrIgnore_no_new
    intro r hr
    apply keyMem_append
    rw [ht2]
    exact keyMem_insertOrIgnore_of_mem rows t r hr
  show Except.ok (insertOrIgnore (t2 ++ u) rows) = Except.ok (t2 ++ u)
  rw [hall]

lemma update_data_extends (locs : List String) :
    ∀ (l : Int) (f : Int → Int → String → Except String (List RenamedData))
      (s e : Dt) (t : List MeasureRow),
      ∃ u, (update_data l f s e locs t).1 = t ++ u := by
  induction locs with
  | nil => intro l f s e t; exact ⟨[], by simp [update_data]⟩
  | cons loc rest ih =>
    intro l f s e t
    cases hf : f (strftimeUTC l s) (strftimeUTC l e) loc with
    | error err => exact ⟨[], by simp [update_data, hf]⟩
    | ok chunk =>
      cases hi : insert_into_db chunk 50 t with
      | error err => exact ⟨[], by simp [update_data, hf, hi]⟩
      | ok t2 =>
        obtain ⟨hbs, rows, hrows, ht2⟩ := insert_into_db_ok hi
        obtain ⟨u1, hu1⟩ := exists_append_insertOrIgnore rows t
        obtain ⟨u2, hu2⟩ := ih l f s e t2
        refine ⟨u1 ++ u2, ?_⟩
        simp only [update_data, hf, hi]
        rw [hu2, ht2, hu1, List.append_assoc]

/-- Claim C5: ingestion is idempotent with respect to the `Measure` table —
re-running `update_data` with the same upstream responses over the table that
a first run produced changes nothing: every insert of the second run targets
rows whose `(identifier, ts)` keys are already present, and the
ignore-on-conflict policy skips them all, so the table (and the outcome) is
exactly that of a single run. -/
theorem update_data_idempotent (l : Int)
    (f : Int → Int → String → Except String (List RenamedData))
    (s e : Dt) (locs : List String) (t0 : List MeasureRow) :
    update_data l f s e locs (update_data l f s e locs t0).1 =
      update_data l f s e locs t0 := by
  induction locs generalizing t0 with
  | nil => rfl
  | cons loc rest ih =>
    cases hf : f (strftimeUTC l s) (strftimeUTC l e) loc with
    | error err => simp [update_data, hf]
    | ok chunk =>
      cases hi : insert_into_db chunk 50 t0 with
      | error err => simp [update_data, hf, hi]
      | ok t2 =>
        have hrun : update_data l f s e (loc :: rest) t0 =
            update_data l f s e rest t2 := by
          simp [update_data, hf, hi]
        rw [hrun]
        obtain ⟨u, hu⟩ := update_data_extends rest l f s e t2
        have hins : insert_into_db chunk 50
            ((update_data l f s e rest t2).1) =
            .ok ((update_data l f s e rest t2).1) := by
          rw [hu]
          exact insert_into_db_stable hi u
        have hstep : update_data l f s e (loc :: rest)
            ((update_data l f s e rest t2).1) =
            update_data l f s e rest ((update_data l f s e rest t2).1) := by
          simp [update_data, hf, hins]
        rw [hstep]
        exact ih t2

/-- Claim C8: `update_data` walks the requested stations left to right; after
a prefix of stations has been fetched and inserted successfully, an uncaught
fetch failure on the next station aborts the whole call with that error, the
remaining stations untouched, while the rows the prefix inserted stay in the
table (no rollback). -/
theorem update_data_aborts_keeping_prefix (l : Int)
    (f : Int → Int → String → Except String (List RenamedData))
    (s e : Dt) (post : List String) (bad : String) (err : String)
    (pre : List String) (t0 t : List MeasureRow)
    (h1 : update_data l f s e pre t0 = (t, .ok ()))
    (h2 : f (strftimeUTC l s) (strftimeUTC l e) bad = .error err) :
    update_data l f s e (pre ++ bad :: post) t0 = (t, .error err) := by
  induction pre generalizing t0 with
  | nil =>
    simp only [update_data, Prod.mk.injEq] at h1
    rw [List.nil_append, ← h1.1]
    simp [update_data, h2]
  | cons p ps ih =>
    cases hf : f (strftimeUTC l s) (strftimeUTC l e) p with
    | error e2 => simp [update_data, hf] at h1
    | ok chunk =>
      cases hi : insert_into_db chunk 50 t0 with
      | error e2 => simp [update_data, hf, hi] at h1
      | ok t2 =>
        have h1b : update_data l f s e ps t2 = (t, .ok ()) := by
          rw [← h1]
          simp [update_data, hf, hi]
        have := ih t2 h1b
        simp only [List.cons_append, update_data, hf, hi]
        exact this

/-- Claim C10: `insert_into_db` on an empty row list never runs the per-batch
loop, so the `rows` local is unbound when the statement is built after the
loop and the call raises instead of no-opping; hence `update_data` fails
whenever the upstream returns an empty measurement array for any requested
station. -/
theorem update_data_fails_on_empty_chunk (l : Int)
    (f : Int → Int → String → Except String (List RenamedData))
    (s e : Dt) (loc : String) (locs : List String)
    (t0 tbl : List MeasureRow)
    (hmem : loc ∈ locs)
    (hf : f (strftimeUTC l s) (strftimeUTC l e) loc = .ok []) :
    insert_into_db [] 50 tbl =
      .error "UnboundLocalError: rows referenced before assignment" ∧
    (update_data l f s e locs t0).2 ≠ .ok () := by
  refine ⟨rfl, ?_⟩
  induction locs generalizing t0 with
  | nil => cases hmem
  | cons a as ih =>
    rcases List.mem_cons.mp hmem with heq | hmem2
    · subst heq
      have hins : insert_into_db ([] : List RenamedData) 50 t0 =
          .error "UnboundLocalError: rows referenced before assignment" := rfl
      simp [update_data, hf, hins]
    · cases hfa : f (strftimeUTC l s) (strftimeUTC l e) a with
      | error e2 => simp [update_data, hfa]
      | ok chunk =>
        cases hi : insert_into_db chunk 50 t0 with
        | error e2 => simp [update_data, hfa, hi]
        | ok t2 =>
          have := ih t2 hmem2
          simp only [update_data, hfa, hi]
          exact this

/-- Witness for `update_data_fails_on_empty_chunk`: the mock station `empty`
yields an empty array and ingestion over it fails. -/
theorem update_data_fails_on_empty_chunk_witness :
    insert_into_db [] 50 [] =
      .error "UnboundLocalError: rows referenced before assignment" ∧
    (update_data 0 mockFetch dtStart dtEnd ["empty"] []).2 ≠ .ok () :=
  update_data_fails_on_empty_chunk 0 mockFetch dtStart dtEnd "empty"
    ["empty"] [] [] (by decide) (by decide)

/-- Claim C1 (code bug): on the exact request the repository's own test
issues (ingestion succeeded, both stations, hourly aggregation, UTC dates
2024-01-01T00:00..00:20), the handler raises `KeyError` instead of answering
200: it drops the Spanish-named columns `nombre`/`identificacion`, but the
frame built from `request_data` carries the English names
`name`/`identifier`, so `df.drop` fails on every request. -/
theorem get_data_keyerror_on_test_request :
    (update_data 0 mockFetch dtStart dtEnd ["89064", "89070"] []).2 = .ok () ∧
    get_data testDb stationSeed 0 (fun _ => 60) 0 0 20
      [Station.juanCarlosI, Station.gabrielDeCastilla] (some AggLevel.hourly) =
      .error "KeyError: columns not found in axis" := by
  exact ⟨by decide, by decide⟩

/-- Claim C4 (code bug): with `aggregation_level` absent the handler still
raises the same `KeyError` at the column drop, so no raw rows are ever
returned (and even past that point the unaggregated frame keeps its
RangeIndex, on which the `tz_convert` call is undefined). -/
theorem get_data_no_aggregation_errors :
    get_data testDb stationSeed 0 (fun _ => 60) 0 0 20
      [Station.gabrielDeCastilla] none =
      .error "KeyError: columns not found in axis" := by
  decide

/-- 51 rows for one station with pairwise-distinct timestamps. -/
def c3Rows : List RenamedData :=
  (List.range 51).map (fun i =>
    { identifier := "89064", name := "JCI Estacion meteorologica",
      ts := { wall := (10 * i : Nat), tz := some 0 },
      temperature := 2, pressure := 99080, velocity := 1 })

/-- Claim C3 (code bug): inserting 51 distinct rows (two batches at the
default batch size 50) persists only the single row of the final batch,
because the `INSERT` statement is built and executed after the per-batch
loop from the last value bound to `rows`; reading the enclosing range back
returns 1 row, not 51. -/
theorem insert_into_db_keeps_only_last_batch :
    c3Rows.length = 51 ∧
    insert_into_db c3Rows 50 [] =
      .ok [{ identifier := "89064", ts := 500, temperature := 2,
             pressure := 99080, velocity := 1 }] ∧
    request_data
      [{ identifier := "89064", ts := 500, temperature := 2,
         pressure := 99080, velocity := 1 }]
      stationSeed 0 { wall := 0, tz := some 0 } { wall := 1000, tz := some 0 }
      "89064" =
      .ok [{ identifier := "89064", name := "Meteo Station Juan Carlos I",
             ts := { wall := 500, tz := some 0 }, temperature := 2,
             pressure := 99080, velocity := 1 }] := by
  exact ⟨by decide, by decide, by decide⟩

/-- Claim C2: the translation loop emits exactly the six English keys (no
Spanish-named key survives), multiplies `pres` by 100 into `pressure`,
passes `temp` and `vel` through unchanged, copies the identity fields, and
stores as `ts` the parsed `fhora` converted to offset zero with its absolute
instant preserved. -/
theorem translate_entry_renames_and_converts (l : Int) (e : Data) (o : Int)
    (h : e.fhora.tz = some o) :
    (translate_entry l e).map Prod.fst =
      ["identifier", "name", "ts", "temperature", "pressure", "velocity"] ∧
    kvLookup "pressure" (translate_entry l e) = some (.f (100 * e.pres)) ∧
    kvLookup "temperature" (translate_entry l e) = some (.f e.temp) ∧
    kvLookup "velocity" (translate_entry l e) = some (.f e.vel) ∧
    kvLookup "identifier" (translate_entry l e) = some (.s e.identificacion) ∧
    kvLookup "name" (translate_entry l e) = some (.s e.nombre) ∧
    kvLookup "ts" (translate_entry l e) = some (.dt (e.fhora.astimezoneUTC l)) ∧
    (e.fhora.astimezoneUTC l).tz = some 0 ∧
    (e.fhora.astimezoneUTC l).instant? = e.fhora.instant? := by
  obtain ⟨idf, nom, fh, tp, pr, vl⟩ := e
  obtain ⟨w, tz⟩ := fh
  cases tz with
  | none => exact Option.noConfusion h
  | some o2 =>
    obtain rfl : o2 = o := Option.some.inj h
    exact ⟨rfl, rfl, rfl, rfl, rfl, rfl, rfl, rfl,
      by simp [Dt.astimezoneUTC, Dt.instant?]⟩

/-- A concrete raw record (offset +60 on its timestamp). -/
def c2Entry : Data :=
  { identificacion := "89064", nombre := "JCI Estacion meteorologica",
    fhora := { wall := 60, tz := some 60 }, temp := 24/10, pres := 9908/10,
    vel := 13/10 }

/-- Witness for `translate_entry_renames_and_converts` at `c2Entry`. -/
theorem translate_entry_renames_and_converts_witness :
    (translate_entry 0 c2Entry).map Prod.fst =
      ["identifier", "name", "ts", "temperature", "pressure", "velocity"] ∧
    kvLookup "pressure" (translate_entry 0 c2Entry) =
      some (.f (100 * c2Entry.pres)) ∧
    kvLookup "temperature" (translate_entry 0 c2Entry) =
      some (.f c2Entry.temp) ∧
    kvLookup "velocity" (translate_entry 0 c2Entry) = some (.f c2Entry.vel) ∧
    kvLookup "identifier" (translate_entry 0 c2Entry) =
      some (.s c2Entry.identificacion) ∧
    kvLookup "name" (translate_entry 0 c2Entry) = some (.s c2Entry.nombre) ∧
    kvLookup "ts" (translate_entry 0 c2Entry) =
      some (.dt (c2Entry.fhora.astimezoneUTC 0)) ∧
    (c2Entry.fhora.astimezoneUTC 0).tz = some 0 ∧
    (c2Entry.fhora.astimezoneUTC 0).instant? = c2Entry.fhora.instant? :=
  translate_entry_renames_and_converts 0 c2Entry 60 rfl

/-- Claim C6: the handler attaches the requested zone's offset to the naive
parsed date (the wall reading is unchanged), so the bound that
`request_data` renders after converting to UTC differs between two requests
whose zones attach different offsets — the same naive string queries
different absolute instants. -/
theorem routeParseDate_attaches_and_shifts_query (w l o1 o2 : Int)
    (h : o1 ≠ o2) :
    (routeParseDate w o1).wall = w ∧ (routeParseDate w o2).wall = w ∧
    strftimeUTC l (routeParseDate w o1) ≠ strftimeUTC l (routeParseDate w o2) := by
  refine ⟨rfl, rfl, ?_⟩
  simp only [strftimeUTC, routeParseDate, Dt.astimezoneUTC, Dt.replaceTzinfo]
  omega

/-- Witness for `routeParseDate_attaches_and_shifts_query`: offsets 0 (utc)
and +60 (a winter central-European zone). -/
theorem routeParseDate_attaches_and_shifts_query_witness :
    (routeParseDate 0 0).wall = 0 ∧ (routeParseDate 0 60).wall = 0 ∧
    strftimeUTC 0 (routeParseDate 0 0) ≠ strftimeUTC 0 (routeParseDate 0 60) :=
  routeParseDate_attaches_and_shifts_query 0 0 0 60 (by decide)

/-- A fetch world whose stage-1 response has status 304: not a 2xx status,
yet outside the 4xx/5xx range `raise_for_status` raises on. -/
def c7World : FetchWorld :=
  { stage1 := (304, { descripcion := "", estado := 0, datos := "http-datos",
                      metadatos := "" }),
    stage2 := fun _ => (200, []) }

/-- Claim C7 counterexample: a non-2xx stage-1 status (304) is not raised —
the fetch proceeds to stage 2 and returns normally, against the claim that
every non-2xx stage-1 status aborts the fetch as an HTTP error. -/
theorem stage1_non2xx_not_always_raised :
    c7World.stage1.1 = 304 ∧
    (query_single_location 0 c7World "stage1-url").urls =
      ["stage1-url", "http-datos"] ∧
    (query_single_location 0 c7World "stage1-url").result = .ok [] := by
  exact ⟨rfl, by decide, by decide⟩

/-- Claim C7 (amended): a stage-1 status other than 200 is logged, and a
stage-1 status in the 4xx/5xx range is then raised as an HTTP error,
aborting the fetch before stage 2; otherwise stage 2 is requested at the
envelope's `datos` URL, a non-200 status there is logged but never raised,
and its body is consumed as the JSON array of raw measurements either way. -/
theorem query_single_location_error_policy (l : Int) (w : FetchWorld)
    (url : String) :
    (w.stage1.1 ≠ 200 → (query_single_location l w url).logs ≠ []) ∧
    (400 ≤ w.stage1.1 ∧ w.stage1.1 < 600 →
      (query_single_location l w url).urls = [url] ∧
      (query_single_location l w url).result =
        .error ("HTTPError: " ++ toString w.stage1.1)) ∧
    (¬ (400 ≤ w.stage1.1 ∧ w.stage1.1 < 600) →
      (query_single_location l w url).urls = [url, w.stage1.2.datos] ∧
      (query_single_location l w url).result =
        .ok ((w.stage2 w.stage1.2.datos).2.map (translate_entry l)) ∧
      ((w.stage2 w.stage1.2.datos).1 ≠ 200 →
        (query_single_location l w url).logs ≠ [])) := by
  by_cases hr : 400 ≤ w.stage1.1 ∧ w.stage1.1 < 600
  · have hq : query_single_location l w url =
        { urls := [url], logs := log_if_error url w.stage1.1,
          result := .error ("HTTPError: " ++ toString w.stage1.1) } := by
      simp [query_single_location, raise_for_status, hr]
    refine ⟨?_, fun _ => by rw [hq]; exact ⟨rfl, rfl⟩, fun hc => absurd hr hc⟩
    intro hne
    rw [hq]
    simp [log_if_error, hne]
  · have hq : query_single_location l w url =
        { urls := [url, w.stage1.2.datos],
          logs := log_if_error url w.stage1.1 ++
            log_if_error url (w.stage2 w.stage1.2.datos).1,
          result :=
            .ok ((w.stage2 w.stage1.2.datos).2.map (translate_entry l)) } := by
      simp [query_single_location, raise_for_status, hr]
    refine ⟨?_, fun hc => absurd hc hr, fun _ => ⟨by rw [hq], by rw [hq], ?_⟩⟩
    · intro hne
      rw [hq]
      simp [log_if_error, hne]
    · intro hne
      rw [hq]
      simp [log_if_error, hne]

/-- A fetch world whose stage-1 response is a plain 404. -/
def c7World404 : FetchWorld :=
  { stage1 := (404, { descripcion := "", estado := 0, datos := "http-datos",
                      metadatos := "" }),
    stage2 := fun _ => (200, []) }

/-- Witness for `query_single_location_error_policy`: at a 404 stage-1
response the error is logged and the fetch stops at the first URL. -/
theorem query_single_location_error_policy_witness :
    (query_single_location 0 c7World404 "u").urls = ["u"] ∧
    (query_single_location 0 c7World404 "u").logs ≠ [] :=
  ⟨((query_single_location_error_policy 0 c7World404 "u").2.1
      (by decide)).1,
   (query_single_location_error_policy 0 c7World404 "u").1 (by decide)⟩

/-- Claim C9: whenever the two-stage fetch reaches stage 2 (stage 1 did not
raise), the second URL requested is exactly the `datos` field of the stage-1
envelope. -/
theorem stage2_url_is_datos_field (l : Int) (w : FetchWorld) (url : String)
    (h : ¬ (400 ≤ w.stage1.1 ∧ w.stage1.1 < 600)) :
    (query_single_location l w url).urls = [url, w.stage1.2.datos] := by
  simp [query_single_location, raise_for_status, h]

/-- A fetch world with a successful stage 1 pointing at a distinctive
`datos` URL. -/
def c9World : FetchWorld :=
  { stage1 := (200, { descripcion := "d", estado := 2,
                      datos := "the-datos-url", metadatos := "m" }),
    stage2 := fun _ => (200, []) }

/-- Witness for `stage2_url_is_datos_field` at `c9World`. -/
theorem stage2_url_is_datos_field_witness :
    (query_single_location 0 c9World "u").urls = ["u", "the-datos-url"] :=
  stage2_url_is_datos_field 0 c9World "u" (by decide)

/-- The `Measure` rows the single-station prefix run inserts. -/
def c8Table : List MeasureRow :=
  [{ identifier := "89064", ts := 0, temperature := 2, pressure := 99080,
     velocity := 1 },
   { identifier := "89064", ts := 10, temperature := 2, pressure := 99080,
     velocity := 1 },
   { identifier := "89064", ts := 20, temperature := 2, pressure := 99090,
     velocity := 1 }]

/-- Witness for `update_data_aborts_keeping_prefix`: station 89064 ingests,
then the unknown station `bad` fails and aborts with the prefix persisted. -/
theorem update_data_aborts_keeping_prefix_witness :
    update_data 0 mockFetch dtStart dtEnd ["89064", "bad"] [] =
      (c8Table, .error "no mock payload") :=
  update_data_aborts_keeping_prefix 0 mockFetch dtStart dtEnd [] "bad"
    "no mock payload" ["89064"] [] c8Table (by decide) (by decide)

end Axpo
